import Mathlib

/-!
Shallow embedding of the event-dispatch and game state-machine subsystem of
the two-player positional game (files `EventManager.py` and `Model.py`).

Conventions of the embedding:
* Python lists used as stacks keep their orientation: the top of the
  `StateMachine` stack is the LAST element of the Lean list, `push` appends
  at the end, `pop`/`peek` read the last element.
* Python `None` results become `Option.none`; a Python exception that would
  abort the dispatch (IndexError on player lookup, KeyError on direction
  lookup) becomes an `Option.none` result of the whole dispatch.
* `pygame.Vector2` float coordinates are modelled as exact rationals `ℚ`.
  The source compares `sqrt(d2) < 2r`; the embedding stores the squared
  distance and the collision test compares `d2 < (2r)^2`, which agrees with
  the source whenever the radius is nonnegative (bridged by `Real.sqrt_lt`
  in the theorems that mention the Euclidean distance).
* The module `Const.py` is imported by the source but is not part of the
  repository snapshot; its constants are modelled from the spec as the
  parameter structure `Const` below.
* Mutation becomes explicit state passing: `GameEngine.notify` maps an
  engine state to a new engine state together with the list of events the
  handler posts to the `EventManager`.  Since the engine is the listener of
  interest, a posted event is itself dispatched synchronously; the events
  the engine ever posts (`Quit`, `ChangePosition`) have handlers that post
  nothing, so a dispatch of depth two is exact (lemma
  `notify_posted_posts_nothing` below).
-/

namespace Challenge2021

/-- Modelled from the spec: the state tokens of `Const.py`
(`STATE_MENU`, `STATE_PLAY`, `STATE_ENDGAME`, `STATE_STOP`) plus the
reserved `STATE_POP` sentinel, opaque comparable values. -/
inductive StateToken where
  | MENU
  | PLAY
  | ENDGAME
  | STOP
  | POP
deriving DecidableEq, Repr

/-- The closed event taxonomy of `EventManager.py`.  `EventInitialize`,
`EventQuit`, `EventPause`, `EventContinue`, `EventEveryTick`, `EventTimesUp`
and `EventChangePosition` carry no payload; `EventStateChange` carries a
state token and `EventPlayerMove` a player id (a Python int) and a
direction key (a string). -/
inductive Event where
  | evInit
  | quit
  | pause
  | cont
  | stateChange (state : StateToken)
  | everyTick
  | timesUp
  | changePosition
  | playerMove (player_id : ℤ) (direction : String)
deriving DecidableEq, Repr

/-- Modelled from the spec: the configuration constants of the missing
`Const.py` (frames-per-second, arena size, player radius, per-role speeds,
initial position per role, round length in ticks, direction→unit-vector
table).  They are externally supplied values, so the embedding is
parametric in them. -/
structure Const where
  FPS : ℚ
  ARENA_SIZE : ℚ × ℚ
  PLAYER_RADIUS : ℚ
  GAME_LENGTH : ℤ
  SPEED_ATTACK : ℚ
  SPEED_DEFENSE : ℚ
  PLAYER_INIT_POSITION : ℕ → ℚ × ℚ
  DIRECTION_TO_VEC2 : String → Option (ℚ × ℚ)

namespace StateMachine

variable {α : Type}

/-- Embeds `StateMachine.peek`: returns the current state without altering the
stack (`None` on the empty stack).  The returned pair is (result, stack
after the call); `peek` leaves the stack unchanged. -/
def peek (statestack : List α) : Option α × List α :=
  (statestack.getLast?, statestack)

/-- Embeds `StateMachine.pop`: returns the current state and removes it from the
stack; the IndexError of popping an empty Python list is caught and turned
into `None`, leaving the stack empty. -/
def pop (statestack : List α) : Option α × List α :=
  (statestack.getLast?, statestack.dropLast)

/-- Embeds `StateMachine.push`: appends the new state on top and returns the
pushed value together with the new stack. -/
def push (statestack : List α) (state : α) : α × List α :=
  (state, statestack ++ [state])

/-- Embeds `StateMachine.clear`: resets to the empty stack. -/
def clear (_statestack : List α) : List α := []

/-- Embeds `StateMachine.__init__`: a fresh state machine has the empty stack. -/
def new : List StateToken := []

end StateMachine

/-- Python indexing into a 2-element list (`self.players`): indices 0 and
-2 select the first element, 1 and -1 the second (negative indices wrap);
any other index raises IndexError, modelled as `none`. -/
def pyIdx2 (i : ℤ) : Option (Fin 2) :=
  if i = 0 ∨ i = -2 then some 0
  else if i = 1 ∨ i = -1 then some 1
  else none

/-- Embeds `Player`: id, mutable 2D position, role-dependent scalar speed. -/
structure Player where
  player_id : ℕ
  position : ℚ × ℚ
  speed : ℚ
deriving DecidableEq, Repr

/-- Embeds `Player.__init__(player_id)`: position starts at the configured initial
position for the id, speed is the attack speed for id 1 and the defense
speed otherwise. -/
def Player.new (C : Const) (player_id : ℕ) : Player :=
  { player_id := player_id
    position := C.PLAYER_INIT_POSITION player_id
    speed := if player_id = 1 then C.SPEED_ATTACK else C.SPEED_DEFENSE }

/-- Embeds `Player.move_direction(direction)`: adds
`speed / FPS * DIRECTION_TO_VEC2[direction]` to the position, then clamps
x into `[0, ARENA_SIZE[0]]` and y into `[0, ARENA_SIZE[1]]`.  A direction
missing from the table raises KeyError, modelled as `none`. -/
def Player.move_direction (p : Player) (C : Const) (direction : String) :
    Option Player :=
  (C.DIRECTION_TO_VEC2 direction).map fun v =>
    let px := p.position.1 + p.speed / C.FPS * v.1
    let py := p.position.2 + p.speed / C.FPS * v.2
    { p with
        position := (max 0 (min C.ARENA_SIZE.1 px),
                     max 0 (min C.ARENA_SIZE.2 py)) }

/-- Iterated `Player.move_direction` over a list of direction keys
(the sequence of `PlayerMove`-driven moves of one player). -/
def Player.move_seq (p : Player) (C : Const) : List String → Option Player
  | [] => some p
  | d :: ds =>
    match p.move_direction C d with
    | none => none
    | some q => q.move_seq C ds

/-- The mutable state of `GameEngine`: the state machine's stack, the
id-to-role mapping `roll` (a 2-element list, embedded as a pair), the two
players (`self.players`, a 2-element list, embedded as a pair), the round
countdown `timer` and the main-loop flag `running`. -/
structure GameEngine where
  stateStack : List StateToken
  roll : ℕ × ℕ
  players : Player × Player
  timer : ℤ
  running : Bool
deriving DecidableEq, Repr

namespace GameEngine

/-- Embeds `GameEngine.initialize()`: pushes `STATE_MENU` onto the current stack,
sets `roll = [0, 1]` and creates the two players from the roll.  (The
pygame clock handle is out of scope; `timer` is set by `run`, not here.) -/
def initGame (C : Const) (s : GameEngine) : GameEngine :=
  { s with
      stateStack := (StateMachine.push s.stateStack StateToken.MENU).2
      roll := (0, 1)
      players := (Player.new C 0, Player.new C 1) }

/-- Embeds `GameEngine.change_position()`: swaps `roll[0]` and `roll[1]`,
recreates both players from the swapped roll, and resets `timer` to
`GAME_LENGTH`. -/
def change_position (C : Const) (s : GameEngine) : GameEngine :=
  { s with
      roll := (s.roll.2, s.roll.1)
      players := (Player.new C s.roll.2, Player.new C s.roll.1)
      timer := C.GAME_LENGTH }

/-- The square of `GameEngine.distance(player1, player2)`; the source
returns `sqrt` of this value. -/
def distance_sq (player1 player2 : Player) : ℚ :=
  (player1.position.1 - player2.position.1) ^ 2 +
    (player1.position.2 - player2.position.2) ^ 2

/-- Embeds `GameEngine.check_collision()`: posts `EventQuit` iff the distance
between the two players is strictly below `2 * PLAYER_RADIUS` (compared on
squares; equivalent to the source's `sqrt` comparison for a nonnegative
radius).  Returns the list of events posted. -/
def check_collision (C : Const) (s : GameEngine) : List Event :=
  if distance_sq s.players.1 s.players.2 < (2 * C.PLAYER_RADIUS) ^ 2 then
    [Event.quit]
  else []

/-- Select `self.players[j]` for a resolved index. -/
def playerAt (s : GameEngine) : Fin 2 → Player
  | 0 => s.players.1
  | 1 => s.players.2

/-- Write back `self.players[j]` after an in-place mutation. -/
def setPlayer (s : GameEngine) : Fin 2 → Player → GameEngine
  | 0, p => { s with players := (p, s.players.2) }
  | 1, p => { s with players := (s.players.1, p) }

/-- Embeds `GameEngine.notify(event)`: one dispatch step.  Returns the new engine
state and the list of events the handler posts, or `none` when the handler
raises (invalid player index, unknown direction key).  The `update_menu`,
`update_objects` and `update_endgame` bodies are `pass` in the source. -/
def notify (C : Const) (e : Event) (s : GameEngine) :
    Option (GameEngine × List Event) :=
  match e with
  | Event.evInit => some (initGame C s, [])
  | Event.everyTick =>
    match (StateMachine.peek s.stateStack).1 with
    | some StateToken.MENU => some (s, [])
    | some StateToken.PLAY =>
      let t := s.timer - 1
      if t = 0 then some ({ s with timer := t }, [Event.changePosition])
      else some ({ s with timer := t }, [])
    | some StateToken.ENDGAME => some (s, [])
    | _ => some (s, [])
  | Event.stateChange st =>
    if st = StateToken.POP then
      match StateMachine.pop s.stateStack with
      | (none, st') => some ({ s with stateStack := st' }, [Event.quit])
      | (some _, st') => some ({ s with stateStack := st' }, [])
    else some ({ s with stateStack := (StateMachine.push s.stateStack st).2 }, [])
  | Event.quit => some ({ s with running := false }, [])
  | Event.playerMove player_id direction =>
    match pyIdx2 player_id with
    | none => none
    | some j =>
      match (playerAt s j).move_direction C direction with
      | none => none
      | some p' =>
        let s' := setPlayer s j p'
        some (s', check_collision C s')
  | Event.timesUp =>
    some ({ s with
              stateStack :=
                (StateMachine.push s.stateStack StateToken.ENDGAME).2 }, [])
  | Event.pause =>
    some ({ s with
              stateStack :=
                (StateMachine.push s.stateStack StateToken.STOP).2 }, [])
  | Event.cont =>
    some ({ s with stateStack := (StateMachine.pop s.stateStack).2 }, [])
  | Event.changePosition => some (change_position C s, [])

/-- Dispatch a list of already-posted events in order, collecting the
events their handlers post in turn. -/
def dispatchList (C : Const) : List Event → GameEngine →
    Option (GameEngine × List Event)
  | [], s => some (s, [])
  | e :: rest, s =>
    match notify C e s with
    | none => none
    | some (s1, posted1) =>
      match dispatchList C rest s1 with
      | none => none
      | some (s2, posted2) => some (s2, posted1 ++ posted2)

/-- Full synchronous processing of one external event: run the engine's
handler, then recursively dispatch each event it posted (the handlers of
those events post nothing, so this depth is exact).  Returns the final
engine state and the complete trace of events posted to the manager. -/
def handleEvent (C : Const) (e : Event) (s : GameEngine) :
    Option (GameEngine × List Event) :=
  match notify C e s with
  | none => none
  | some (s1, posted) =>
    match dispatchList C posted s1 with
    | none => none
    | some (s2, nested) => some (s2, posted ++ nested)

/-- Runs `n` consecutive `EventEveryTick` dispatches (the body of `run`'s main
loop, without the frame-rate limiter), collecting every posted event. -/
def runTicks (C : Const) : ℕ → GameEngine →
    Option (GameEngine × List Event)
  | 0, s => some (s, [])
  | n + 1, s =>
    match handleEvent C Event.everyTick s with
    | none => none
    | some (s1, p1) =>
      match runTicks C n s1 with
      | none => none
      | some (s2, p2) => some (s2, p1 ++ p2)

end GameEngine

/-- Embeds `EventManager`: holds the ordered list of registered listeners. -/
structure EventManager (L : Type) where
  listeners : List L

/-- Embeds `EventManager.register_listener(listener)`: appends to the dispatch
list (duplicates allowed, no idempotence). -/
def EventManager.register_listener {L : Type} (m : EventManager L)
    (listener : L) : EventManager L :=
  { m with listeners := m.listeners ++ [listener] }

/-- Embeds `EventManager.post(event)`: iterates over `self.listeners` in order,
invoking `listener.notify(event)` on each.  The embedding returns the
trace of notify invocations, in invocation order. -/
def EventManager.post {L E : Type} (m : EventManager L) (event : E) :
    List (L × E) :=
  m.listeners.map fun listener => (listener, event)

/-! ### Sample configuration and states, used by concrete witnesses -/

/-- A concrete sample configuration (the real `Const.py` values are not in
the snapshot; any values exercise the logic). -/
def testConst : Const :=
  { FPS := 1
    ARENA_SIZE := (800, 600)
    PLAYER_RADIUS := 10
    GAME_LENGTH := 5
    SPEED_ATTACK := 2
    SPEED_DEFENSE := 1
    PLAYER_INIT_POSITION := fun id => if id = 1 then (700, 500) else (100, 100)
    DIRECTION_TO_VEC2 := fun d =>
      if d = "up" then some (0, -1)
      else if d = "down" then some (0, 1)
      else if d = "left" then some (-1, 0)
      else if d = "right" then some (1, 0)
      else none }

/-- A sample engine state right after `initialize()`: stack `[MENU]`,
`roll = [0, 1]`, fresh players. -/
def demoEngine : GameEngine :=
  { stateStack := [StateToken.MENU]
    roll := (0, 1)
    players := (Player.new testConst 0, Player.new testConst 1)
    timer := 5
    running := true }

/-- The sample engine with an exhausted (empty) state stack. -/
def emptyStackEngine : GameEngine := { demoEngine with stateStack := [] }

/-- The sample engine inside a round: `PLAY` on top, two ticks left. -/
def playEngine : GameEngine :=
  { demoEngine with
      stateStack := [StateToken.MENU, StateToken.PLAY]
      timer := 2 }

/-! ### Helper lemmas -/

lemma registerAll_listeners {L : Type} (ls : List L) (m : EventManager L) :
    (ls.foldl EventManager.register_listener m).listeners =
      m.listeners ++ ls := by
  induction ls generalizing m with
  | nil => simp
  | cons a t ih =>
    simp [List.foldl_cons, ih, EventManager.register_listener]

lemma count_map_pair {L E : Type} [DecidableEq L] [DecidableEq E]
    (ls : List L) (e : E) (l : L) :
    (ls.map fun x => (x, e)).count (l, e) = ls.count l := by
  induction ls with
  | nil => simp
  | cons a t ih => simp [List.count_cons, ih]

lemma move_direction_inArena (C : Const) (p p' : Player) (d : String)
    (hW : 0 ≤ C.ARENA_SIZE.1) (hH : 0 ≤ C.ARENA_SIZE.2)
    (h : p.move_direction C d = some p') :
    0 ≤ p'.position.1 ∧ p'.position.1 ≤ C.ARENA_SIZE.1 ∧
      0 ≤ p'.position.2 ∧ p'.position.2 ≤ C.ARENA_SIZE.2 := by
  cases hv : C.DIRECTION_TO_VEC2 d with
  | none => simp [Player.move_direction, hv] at h
  | some v =>
    simp only [Player.move_direction, hv, Option.map_some',
      Option.some.injEq] at h
    subst h
    refine ⟨le_max_left _ _, max_le hW (min_le_left _ _),
            le_max_left _ _, max_le hH (min_le_left _ _)⟩

lemma handleEvent_tick_play (C : Const) (s : GameEngine)
    (htop : s.stateStack.getLast? = some StateToken.PLAY) :
    (s.timer ≠ 1 →
      GameEngine.handleEvent C Event.everyTick s =
        some ({ s with timer := s.timer - 1 }, [])) ∧
    (s.timer = 1 →
      GameEngine.handleEvent C Event.everyTick s =
        some (GameEngine.change_position C { s with timer := 0 },
              [Event.changePosition])) := by
  constructor
  · intro h
    have h0 : ¬(s.timer - 1 = 0) := by omega
    simp [GameEngine.handleEvent, GameEngine.notify, StateMachine.peek,
      htop, h0, GameEngine.dispatchList]
  · intro h
    simp [GameEngine.handleEvent, GameEngine.notify, StateMachine.peek,
      htop, h, GameEngine.dispatchList]

/-! ### Claims -/

/-- C7: for every stack contents and state token, `push(s)` returns `s`;
`push(s)` followed by `pop()` returns `s` and leaves the stack equal to its
contents before the push; `peek()` returns the top element without
changing the stack. -/
theorem C7_stack_round_trip {α : Type} (statestack : List α) (s : α) :
    (StateMachine.push statestack s).1 = s ∧
    StateMachine.pop (StateMachine.push statestack s).2 = (some s, statestack) ∧
    StateMachine.peek statestack = (statestack.getLast?, statestack) := by
  refine ⟨rfl, ?_, rfl⟩
  simp [StateMachine.pop, StateMachine.push, List.getLast?_concat]

/-- C8: `pop()` and `peek()` on an empty stack — freshly constructed,
`clear()`ed, or with every element removed (any empty contents) — return
the distinguished `none` result, which differs from `some t` for every
state token `t`.  All four operations are total Lean functions, mirroring
the total Python methods (the IndexError is caught internally). -/
theorem C8_empty_stack_sentinel :
    (StateMachine.pop StateMachine.new).1 = none ∧
    (StateMachine.peek StateMachine.new).1 = none ∧
    (∀ st : List StateToken,
      (StateMachine.pop (StateMachine.clear st)).1 = none ∧
      (StateMachine.peek (StateMachine.clear st)).1 = none) ∧
    (∀ st : List StateToken, st = [] →
      (StateMachine.pop st).1 = none ∧ (StateMachine.peek st).1 = none) ∧
    (∀ t : StateToken, (StateMachine.pop StateMachine.new).1 ≠ some t) := by
  refine ⟨rfl, rfl, fun st => ⟨rfl, rfl⟩, fun st h => ?_, fun t h => ?_⟩
  · subst h; exact ⟨rfl, rfl⟩
  · exact Option.noConfusion h

/-- C8 witness: instantiating the quantified/hypothetical parts at the
concrete empty stack and the `MENU` token. -/
theorem C8_empty_stack_sentinel_witness :
    (StateMachine.pop (StateMachine.clear [StateToken.PLAY])).1 = none ∧
    (StateMachine.pop StateMachine.new).1 ≠ some StateToken.MENU :=
  ⟨(C8_empty_stack_sentinel.2.2.1 [StateToken.PLAY]).1,
   C8_empty_stack_sentinel.2.2.2.2 StateToken.MENU⟩

/-- C6: processing `EventContinue` pops the stack unconditionally: the new
stack is always `dropLast` of the old one (removing the top on a non-empty
stack), nothing is posted, no error is raised (the result is always
`some`), and on an empty stack the stack stays empty. -/
theorem C6_continue_pops_unconditionally (C : Const) (s : GameEngine) :
    GameEngine.handleEvent C Event.cont s =
      some ({ s with stateStack := s.stateStack.dropLast }, []) ∧
    (s.stateStack = [] →
      GameEngine.handleEvent C Event.cont s = some (s, [])) := by
  constructor
  · rfl
  · intro h
    cases s
    simp only at h
    subst h
    rfl

/-- C6 witness: `EventContinue` on the concrete empty-stack engine is a
quiet no-op. -/
theorem C6_continue_pops_unconditionally_witness :
    GameEngine.handleEvent testConst Event.cont emptyStackEngine =
      some (emptyStackEngine, []) :=
  (C6_continue_pops_unconditionally testConst emptyStackEngine).2 rfl

/-- C2: registering listeners `L1..LN` in order (duplicates allowed) and
then calling `post(e)` once produces exactly `N` notify invocations, the
`i`-th of which is `notify(e)` on `Li`; in particular every registered
entry is notified exactly once, in registration order.  (Dispatch is a
plain sequential loop, hence synchronous on the caller.) -/
theorem C2_post_registration_order {L : Type} [DecidableEq L]
    (ls : List L) (e : Event) :
    ((ls.foldl EventManager.register_listener ⟨[]⟩).post e).length = ls.length ∧
    (∀ i : ℕ, ((ls.foldl EventManager.register_listener ⟨[]⟩).post e)[i]? =
      (ls[i]?).map fun l => (l, e)) ∧
    (∀ l : L, ((ls.foldl EventManager.register_listener ⟨[]⟩).post e).count
      (l, e) = ls.count l) := by
  have h : (ls.foldl EventManager.register_listener
      (⟨[]⟩ : EventManager L)).listeners = ls := by
    simpa using registerAll_listeners ls ⟨[]⟩
  refine ⟨?_, ?_, ?_⟩
  · simp [EventManager.post, h]
  · intro i
    simp [EventManager.post, h]
  · intro l
    simpa [EventManager.post, h] using count_map_pair ls e l

/-- C9: `change_position` is an involution on `roll` (two applications
restore it, from any state); one application keeps `roll` a permutation of
`{0, 1}` when it was one; and after any application
`players[i].player_id = roll[i]` for both `i`, since the players are
rebuilt from the swapped roll. -/
theorem C9_change_position_involution (C : Const) (s : GameEngine) :
    (GameEngine.change_position C (GameEngine.change_position C s)).roll =
      s.roll ∧
    ((GameEngine.change_position C s).players.1.player_id =
        (GameEngine.change_position C s).roll.1 ∧
      (GameEngine.change_position C s).players.2.player_id =
        (GameEngine.change_position C s).roll.2) ∧
    (s.roll = (0, 1) ∨ s.roll = (1, 0) →
      (GameEngine.change_position C s).roll = (0, 1) ∨
        (GameEngine.change_position C s).roll = (1, 0)) := by
  refine ⟨rfl, ⟨rfl, rfl⟩, ?_⟩
  rintro (h | h)
  · right
    show (s.roll.2, s.roll.1) = (1, 0)
    rw [h]
  · left
    show (s.roll.2, s.roll.1) = (0, 1)
    rw [h]

/-- C9 witness: at the sample engine (`roll = (0, 1)`) the permutation
hypothesis is discharged and the swapped roll is again a permutation. -/
theorem C9_change_position_involution_witness :
    (GameEngine.change_position testConst demoEngine).roll = (0, 1) ∨
      (GameEngine.change_position testConst demoEngine).roll = (1, 0) :=
  (C9_change_position_involution testConst demoEngine).2.2 (Or.inl rfl)

/-- C1 counterexample: with the stack holding exactly one element
(`[MENU]`), processing `EventStateChange(POP)` pops the element and posts
NOTHING — no `EventQuit` — because `StateMachine.pop` on a one-element
stack returns the element, not `None`; the source posts `Quit` only when
`pop()` itself returns `None`, i.e. when the stack was already empty. -/
theorem C1_pop_singleton_no_quit :
    demoEngine.stateStack.length = 1 ∧
    GameEngine.handleEvent testConst (Event.stateChange StateToken.POP)
        demoEngine =
      some ({ demoEngine with stateStack := [] }, []) :=
  ⟨rfl, rfl⟩

/-- C1 amended: processing `EventStateChange(POP)` posts `EventQuit` when
the stack is already EMPTY (zero elements) — the nested `Quit` dispatch
also clears `running`; when the stack holds exactly one element, that
element is popped, the stack becomes empty, and no `EventQuit` is
posted. -/
theorem C1_pop_empty_posts_quit (C : Const) (s : GameEngine) :
    (s.stateStack = [] →
      GameEngine.handleEvent C (Event.stateChange StateToken.POP) s =
        some ({ s with running := false }, [Event.quit])) ∧
    (∀ x : StateToken, s.stateStack = [x] →
      GameEngine.handleEvent C (Event.stateChange StateToken.POP) s =
        some ({ s with stateStack := [] }, [])) := by
  constructor
  · intro h
    cases s
    simp only at h
    subst h
    rfl
  · intro x h
    cases s
    simp only at h
    subst h
    rfl

/-- C1 amended witness: at the concrete empty-stack engine, the `POP`
state change posts exactly one `EventQuit`. -/
theorem C1_pop_empty_posts_quit_witness :
    GameEngine.handleEvent testConst (Event.stateChange StateToken.POP)
        emptyStackEngine =
      some ({ emptyStackEngine with running := false }, [Event.quit]) :=
  (C1_pop_empty_posts_quit testConst emptyStackEngine).1 rfl

/-- C3: from any starting position, any nonempty sequence of
`move_direction` calls whose directions are all in the configured table
(so that each lookup succeeds) ends with a position clamped into
`[0, ARENA_W] × [0, ARENA_H]`, each coordinate independently; applied to
every prefix of a run, this bounds the position after each call.
(Requires the configured arena bounds to be nonnegative.) -/
theorem C3_move_seq_clamped (C : Const)
    (hW : 0 ≤ C.ARENA_SIZE.1) (hH : 0 ≤ C.ARENA_SIZE.2) :
    ∀ (ds : List String) (p p' : Player), ds ≠ [] →
      p.move_seq C ds = some p' →
      0 ≤ p'.position.1 ∧ p'.position.1 ≤ C.ARENA_SIZE.1 ∧
        0 ≤ p'.position.2 ∧ p'.position.2 ≤ C.ARENA_SIZE.2 := by
  intro ds
  induction ds with
  | nil => intro p p' hne; exact absurd rfl hne
  | cons d ds ih =>
    intro p p' _ h
    cases hm : p.move_direction C d with
    | none => simp [Player.move_seq, hm] at h
    | some q =>
      simp only [Player.move_seq, hm] at h
      cases ds with
      | nil =>
        simp only [Player.move_seq, Option.some.injEq] at h
        subst h
        exact move_direction_inArena C p q d hW hH hm
      | cons d2 ds2 =>
        exact ih q p' (by simp) h

/-- C3 witness: a player starting OUTSIDE the arena at `(1000, -3)` moving
`"up"` once lands on the clamped corner `(800, 0)` of the sample arena. -/
theorem C3_move_seq_clamped_witness :
    (0 : ℚ) ≤ (800 : ℚ) ∧ (800 : ℚ) ≤ testConst.ARENA_SIZE.1 ∧
      (0 : ℚ) ≤ (0 : ℚ) ∧ (0 : ℚ) ≤ testConst.ARENA_SIZE.2 :=
  C3_move_seq_clamped testConst (by decide) (by decide) ["up"]
    { player_id := 0, position := (1000, -3), speed := 1 }
    { player_id := 0, position := (800, 0), speed := 1 }
    (by decide)
    (by
      simp only [Player.move_seq, Player.move_direction, testConst,
        Option.map_some']
      norm_num)

/-- C4: with `PLAY` on top of the stack and `timer = T > 0`, the `T`-th
`EveryTick` dispatch drives the timer to exactly 0 and posts one
`ChangePosition` (and the whole `T`-tick trace contains exactly that one
event); its synchronous handler resets the timer to `GAME_LENGTH` and
swaps `roll[0]` and `roll[1]` relative to their values before the
ticks. -/
theorem C4_timer_driven_swap (C : Const) (T : ℕ) (s : GameEngine)
    (htop : s.stateStack.getLast? = some StateToken.PLAY)
    (htimer : s.timer = (T : ℤ)) (hT : 0 < T) :
    ∃ s' : GameEngine,
      GameEngine.runTicks C T s = some (s', [Event.changePosition]) ∧
      s'.timer = C.GAME_LENGTH ∧
      s'.roll = (s.roll.2, s.roll.1) := by
  induction T generalizing s with
  | zero => omega
  | succ n ih =>
    cases Nat.eq_zero_or_pos n with
    | inl h0 =>
      subst h0
      have h1 : s.timer = 1 := by rw [htimer]; rfl
      have htick := (handleEvent_tick_play C s htop).2 h1
      refine ⟨GameEngine.change_position C { s with timer := 0 }, ?_, rfl, rfl⟩
      simp [GameEngine.runTicks, htick]
    | inr hpos =>
      have hne : s.timer ≠ 1 := by omega
      have htick := (handleEvent_tick_play C s htop).1 hne
      have htimer1 : ({ s with timer := s.timer - 1 } : GameEngine).timer =
          (n : ℤ) := by
        simp [htimer]
      obtain ⟨s', hrun, ht', hr'⟩ :=
        ih { s with timer := s.timer - 1 } htop htimer1 hpos
      refine ⟨s', ?_, ht', hr'⟩
      simp [GameEngine.runTicks, htick, hrun]

/-- C4 witness: the sample in-round engine (`PLAY` on top, `timer = 2`)
run for 2 ticks posts one `ChangePosition`, resets the timer and swaps the
roll. -/
theorem C4_timer_driven_swap_witness :
    ∃ s' : GameEngine,
      GameEngine.runTicks testConst 2 playEngine =
        some (s', [Event.changePosition]) ∧
      s'.timer = testConst.GAME_LENGTH ∧
      s'.roll = (playEngine.roll.2, playEngine.roll.1) :=
  C4_timer_driven_swap testConst 2 playEngine rfl rfl (by decide)

lemma distance_sq_nonneg (p q : Player) :
    0 ≤ GameEngine.distance_sq p q :=
  add_nonneg (sq_nonneg _) (sq_nonneg _)

/-- The source compares `sqrt(d2) < 2 * PLAYER_RADIUS`; for a nonnegative
radius this is the squared comparison the embedding performs. -/
lemma sqrt_distance_lt_iff (p q : Player) (r : ℚ) (hr : 0 ≤ r) :
    Real.sqrt ((GameEngine.distance_sq p q : ℚ) : ℝ) < ((2 * r : ℚ) : ℝ) ↔
      GameEngine.distance_sq p q < (2 * r) ^ 2 := by
  have hd : (0 : ℝ) ≤ ((GameEngine.distance_sq p q : ℚ) : ℝ) := by
    exact_mod_cast distance_sq_nonneg p q
  have h2r : (0 : ℝ) ≤ ((2 * r : ℚ) : ℝ) := by
    have : (0 : ℚ) ≤ 2 * r := by positivity
    exact_mod_cast this
  rw [Real.sqrt_lt hd h2r]
  exact_mod_cast Iff.rfl

/-- C5: any successfully processed `PlayerMove` posts `[Quit]` exactly
when, after the move, the Euclidean distance between the two players is
strictly below `2 * PLAYER_RADIUS`, and posts nothing otherwise (so either
exactly one `Quit` or no event at all comes out of the collision
check). -/
theorem C5_collision_quit (C : Const) (s s2 : GameEngine)
    (posted : List Event) (player_id : ℤ) (direction : String)
    (hr : 0 ≤ C.PLAYER_RADIUS)
    (h : GameEngine.handleEvent C (Event.playerMove player_id direction) s =
      some (s2, posted)) :
    (Real.sqrt ((GameEngine.distance_sq s2.players.1 s2.players.2 : ℚ) : ℝ) <
        ((2 * C.PLAYER_RADIUS : ℚ) : ℝ) ↔ posted = [Event.quit]) ∧
    (posted = [Event.quit] ∨ posted = []) := by
  cases hj : pyIdx2 player_id with
  | none => simp [GameEngine.handleEvent, GameEngine.notify, hj] at h
  | some j =>
    cases hm : (GameEngine.playerAt s j).move_direction C direction with
    | none => simp [GameEngine.handleEvent, GameEngine.notify, hj, hm] at h
    | some p' =>
      by_cases hc :
        GameEngine.distance_sq (GameEngine.setPlayer s j p').players.1
            (GameEngine.setPlayer s j p').players.2 <
          (2 * C.PLAYER_RADIUS) ^ 2
      · have heq : GameEngine.handleEvent C
            (Event.playerMove player_id direction) s =
            some ({ GameEngine.setPlayer s j p' with running := false },
                  [Event.quit]) := by
          simp [GameEngine.handleEvent, GameEngine.notify, hj, hm,
            GameEngine.check_collision, hc, GameEngine.dispatchList]
        rw [heq, Option.some.injEq, Prod.mk.injEq] at h
        obtain ⟨hs2, hposted⟩ := h
        subst hs2
        subst hposted
        refine ⟨?_, Or.inl rfl⟩
        rw [sqrt_distance_lt_iff _ _ _ hr]
        simpa using hc
      · have heq : GameEngine.handleEvent C
            (Event.playerMove player_id direction) s =
            some (GameEngine.setPlayer s j p', []) := by
          simp [GameEngine.handleEvent, GameEngine.notify, hj, hm,
            GameEngine.check_collision, hc, GameEngine.dispatchList]
        rw [heq, Option.some.injEq, Prod.mk.injEq] at h
        obtain ⟨hs2, hposted⟩ := h
        subst hs2
        subst hposted
        refine ⟨?_, Or.inr rfl⟩
        rw [sqrt_distance_lt_iff _ _ _ hr]
        simpa using hc

/-- Two players one step short of touching: used by the C5 witness. -/
def nearEngine : GameEngine :=
  { demoEngine with
      players :=
        ({ player_id := 0, position := (100, 100), speed := 1 },
         { player_id := 1, position := (105, 100), speed := 2 }) }

/-- The state after `PlayerMove(0, "right")` on `nearEngine`: player 0
stepped to `(101, 100)`, the collision check fired and the nested `Quit`
cleared `running`. -/
def nearEngineAfter : GameEngine :=
  { nearEngine with
      players :=
        ({ player_id := 0, position := (101, 100), speed := 1 },
         { player_id := 1, position := (105, 100), speed := 2 }),
      running := false }

/-- C5 witness: on the concrete near-collision scenario the processed
move posts exactly `[Quit]`, and the theorem converts that back into the
strict Euclidean-distance bound. -/
theorem C5_collision_quit_witness :
    Real.sqrt ((GameEngine.distance_sq nearEngineAfter.players.1
        nearEngineAfter.players.2 : ℚ) : ℝ) <
      ((2 * testConst.PLAYER_RADIUS : ℚ) : ℝ) :=
  ((C5_collision_quit testConst nearEngine nearEngineAfter [Event.quit]
      0 "right" (by decide)
      (by
        simp [GameEngine.handleEvent, GameEngine.notify, pyIdx2,
          GameEngine.playerAt, GameEngine.setPlayer,
          GameEngine.check_collision, GameEngine.distance_sq,
          GameEngine.dispatchList, Player.move_direction, testConst,
          nearEngine, nearEngineAfter, demoEngine, min_def, max_def]
        norm_num [GameEngine.dispatchList, GameEngine.notify])).1).mpr rfl

lemma notify_posts_only_terminal (C : Const) (e : Event) (s s1 : GameEngine)
    (posted : List Event)
    (h : GameEngine.notify C e s = some (s1, posted)) :
    ∀ e' ∈ posted, e' = Event.quit ∨ e' = Event.changePosition := by
  cases e <;> simp only [GameEngine.notify] at h <;> repeat' split at h
  all_goals
    first
      | (simp only [Option.some.injEq, Prod.mk.injEq] at h
         obtain ⟨-, rfl⟩ := h
         intro e' he'
         try simp only [GameEngine.check_collision] at he'
         repeat' split at he'
         all_goals simp_all)
      | simp_all

/-- Every event the engine's handler ever posts (`Quit` or
`ChangePosition`) has a handler that posts nothing itself, so the
depth-two dispatch of `handleEvent` is the complete synchronous
recursion. -/
lemma notify_posted_posts_nothing (C : Const) (e : Event) (s s1 : GameEngine)
    (posted : List Event)
    (h : GameEngine.notify C e s = some (s1, posted)) :
    ∀ e' ∈ posted, ∀ s2 : GameEngine, ∃ s3 : GameEngine,
      GameEngine.notify C e' s2 = some (s3, []) := by
  intro e' he' s2
  rcases notify_posts_only_terminal C e s s1 posted h e' he' with rfl | rfl
  · exact ⟨{ s2 with running := false }, rfl⟩
  · exact ⟨GameEngine.change_position C s2, rfl⟩

lemma handleEvent_playerMove_valid (C : Const) (s : GameEngine) (d : String)
    (j : Fin 2) (p' : Player)
    (hm : (GameEngine.playerAt s j).move_direction C d = some p')
    (player_id : ℤ) (hj : pyIdx2 player_id = some j) :
    ∃ s2 posted,
      GameEngine.handleEvent C (Event.playerMove player_id d) s =
        some (s2, posted) ∧
      s2.players = (GameEngine.setPlayer s j p').players := by
  by_cases hc :
    GameEngine.distance_sq (GameEngine.setPlayer s j p').players.1
        (GameEngine.setPlayer s j p').players.2 <
      (2 * C.PLAYER_RADIUS) ^ 2
  · exact ⟨{ GameEngine.setPlayer s j p' with running := false },
      [Event.quit], by
        simp [GameEngine.handleEvent, GameEngine.notify, hj, hm,
          GameEngine.check_collision, hc, GameEngine.dispatchList], rfl⟩
  · exact ⟨GameEngine.setPlayer s j p', [], by
      simp [GameEngine.handleEvent, GameEngine.notify, hj, hm,
        GameEngine.check_collision, hc, GameEngine.dispatchList], rfl⟩

/-- C10: `notify` on `EventPlayerMove` indexes the 2-element player list
with raw Python indexing: ids 0 and -2 move the first player, 1 and -1
the second (negative ids wrap), while any id outside `[-2, 1]` raises
IndexError and aborts the dispatch (result `none`).  The direction is
assumed to be in the configured table so the move itself succeeds. -/
theorem C10_playerMove_index_wrap (C : Const) (s : GameEngine)
    (direction : String) (v : ℚ × ℚ)
    (hd : C.DIRECTION_TO_VEC2 direction = some v) (player_id : ℤ) :
    ((player_id < -2 ∨ 1 < player_id) →
      GameEngine.handleEvent C (Event.playerMove player_id direction) s =
        none) ∧
    ((player_id = 0 ∨ player_id = -2) →
      ∃ (p' : Player) (s2 : GameEngine) (posted : List Event),
        s.players.1.move_direction C direction = some p' ∧
        GameEngine.handleEvent C (Event.playerMove player_id direction) s =
          some (s2, posted) ∧
        s2.players = (p', s.players.2)) ∧
    ((player_id = 1 ∨ player_id = -1) →
      ∃ (p' : Player) (s2 : GameEngine) (posted : List Event),
        s.players.2.move_direction C direction = some p' ∧
        GameEngine.handleEvent C (Event.playerMove player_id direction) s =
          some (s2, posted) ∧
        s2.players = (s.players.1, p')) := by
  refine ⟨?_, ?_, ?_⟩
  · intro hout
    have hj : pyIdx2 player_id = none := by
      unfold pyIdx2
      rw [if_neg (by omega), if_neg (by omega)]
    simp [GameEngine.handleEvent, GameEngine.notify, hj]
  · intro h01
    have hj : pyIdx2 player_id = some 0 := by
      unfold pyIdx2
      exact if_pos h01
    obtain ⟨p', hp'⟩ :
        ∃ p', (GameEngine.playerAt s 0).move_direction C direction =
          some p' := by
      simp [Player.move_direction, hd]
    obtain ⟨s2, posted, he, hpl⟩ :=
      handleEvent_playerMove_valid C s direction 0 p' hp' player_id hj
    exact ⟨p', s2, posted, hp', he, hpl⟩
  · intro h1
    have hj : pyIdx2 player_id = some 1 := by
      unfold pyIdx2
      rw [if_neg (by omega), if_pos h1]
    obtain ⟨p', hp'⟩ :
        ∃ p', (GameEngine.playerAt s 1).move_direction C direction =
          some p' := by
      simp [Player.move_direction, hd]
    obtain ⟨s2, posted, he, hpl⟩ :=
      handleEvent_playerMove_valid C s direction 1 p' hp' player_id hj
    exact ⟨p', s2, posted, hp', he, hpl⟩

/-- C10 witness: id `-1` wraps to the second player (direction `"up"`,
which is in the sample table). -/
theorem C10_playerMove_index_wrap_witness :
    ∃ (p' : Player) (s2 : GameEngine) (posted : List Event),
      demoEngine.players.2.move_direction testConst "up" = some p' ∧
      GameEngine.handleEvent testConst (Event.playerMove (-1) "up")
          demoEngine =
        some (s2, posted) ∧
      s2.players = (demoEngine.players.1, p') :=
  (C10_playerMove_index_wrap testConst demoEngine "up" (0, -1)
      (by simp [testConst]) (-1)).2.2 (Or.inr rfl)

end Challenge2021
